import Mathlib

/-!
Shallow embedding of the event-retrieval-and-normalization pipeline of the
google-calendar-line-notifier repository.

Modelling conventions:
* A Go `time.Time` is modelled by `GoTime`: the absolute instant in seconds
  since the Unix epoch together with the UTC offset (in seconds) of the
  location the value is expressed in.  `Asia/Tokyo` is a fixed +09:00 zone
  (no DST), modelled by the constant offset `jst = 32400`.
* `time.Parse(time.RFC3339, s)` and `time.Parse("2006-01-02", s)` are
  modelled by executable parsers over the string's character list, covering
  the exact layouts the repository feeds them (fractional seconds, which
  never occur in this repository's data, are not modelled).  A layout
  mismatch or out-of-range calendar field yields `none`, matching Go's
  parse error.
* Calendar-date arithmetic uses the standard civil-from-days algorithm,
  which agrees with Go's proleptic Gregorian calendar for the years ≥ 1
  that can appear in a 4-digit-year layout.
* Errors produced by `convertToEvent` are modelled by the inductive
  `ConvErr`; each constructor corresponds to one distinct `fmt.Errorf`
  message in the source (`missingStart` ↔ 「開始時刻が設定されていません」,
  `missingEnd` ↔ 「終了時刻が設定されていません」, the four parse-failure
  constructors ↔ the 「…の解析に失敗しました: %v」 messages, carrying the
  offending raw string that Go's `%v` would embed).
-/

/-- A Go `time.Time`: absolute instant (seconds since the Unix epoch) plus
the UTC offset of the location the value is expressed in. -/
structure GoTime where
  instant : Int
  offset : Int
  deriving DecidableEq, Repr

/-- Go's `t.In(loc)`: same instant, re-expressed in the location `off`. -/
def GoTime.inLoc (t : GoTime) (off : Int) : GoTime :=
  { instant := t.instant, offset := off }

/-- The fixed UTC offset of `Asia/Tokyo` (+09:00), in seconds. -/
def jst : Int := 32400

/-- Gregorian leap-year test. -/
def isLeap (y : Nat) : Bool :=
  (y % 4 == 0 && y % 100 != 0) || y % 400 == 0

/-- Number of days in month `m` of year `y`. -/
def daysInMonth (y m : Nat) : Nat :=
  if m = 2 then (if isLeap y then 29 else 28)
  else if m = 4 ∨ m = 6 ∨ m = 9 ∨ m = 11 then 30
  else 31

/-- Days from 1970-01-01 to the civil date `y-m-d` (proleptic Gregorian,
valid for `y ≥ 1`); the standard days-from-civil algorithm. -/
def daysFromCivil (y m d : Nat) : Int :=
  let y' := if m ≤ 2 then y - 1 else y
  let era := y' / 400
  let yoe := y' % 400
  let mp := (m + 9) % 12
  let doy := (153 * mp + 2) / 5 + d - 1
  let doe := yoe * 365 + yoe / 4 - yoe / 100 + doy
  (era * 146097 + doe : Int) - 719468

/-- Go's `time.Date(y, m, d, h, mi, s, 0, loc)` for in-range fields:
the instant of that local wall-clock time in a location with UTC offset
`off`, carrying that offset. -/
def timeDate (y m d h mi s : Nat) (off : Int) : GoTime :=
  { instant := daysFromCivil y m d * 86400 + (h * 3600 + mi * 60 + s : Nat) - off,
    offset := off }

/-- Two decimal digits to a number, `none` if either is not a digit. -/
def digit2 (a b : Char) : Option Nat :=
  if a.isDigit && b.isDigit then
    some ((a.toNat - 48) * 10 + (b.toNat - 48))
  else none

/-- Four decimal digits to a number, `none` if any is not a digit. -/
def digit4 (a b c d : Char) : Option Nat :=
  match digit2 a b, digit2 c d with
  | some hi, some lo => some (hi * 100 + lo)
  | _, _ => none

/-- The zone part of an RFC3339 timestamp: `Z` or `±HH:MM`, as a UTC
offset in seconds. -/
def parseZone : List Char → Option Int
  | ['Z'] => some 0
  | ['+', a, b, ':', c, d] =>
    match digit2 a b, digit2 c d with
    | some zh, some zm =>
      if zh ≤ 23 && zm ≤ 59 then some ((zh * 3600 + zm * 60 : Nat) : Int) else none
    | _, _ => none
  | ['-', a, b, ':', c, d] =>
    match digit2 a b, digit2 c d with
    | some zh, some zm =>
      if zh ≤ 23 && zm ≤ 59 then some (-((zh * 3600 + zm * 60 : Nat) : Int)) else none
    | _, _ => none
  | _ => none

/-- Validity of the calendar/clock fields of a parsed timestamp, as Go's
parser checks them. -/
def fieldsOk (y mo d h mi s : Nat) : Bool :=
  1 ≤ mo && mo ≤ 12 && 1 ≤ d && d ≤ daysInMonth y mo && h ≤ 23 && mi ≤ 59 && s ≤ 59

/-- Go's `time.Parse(time.RFC3339, s)`: layout `YYYY-MM-DDTHH:MM:SS` plus
`Z` or `±HH:MM`; the result carries the offset parsed from the string. -/
def timeParseRFC3339 (s : String) : Option GoTime :=
  match s.data with
  | c1 :: c2 :: c3 :: c4 :: '-' :: c5 :: c6 :: '-' :: c7 :: c8 :: 'T' ::
    c9 :: c10 :: ':' :: c11 :: c12 :: ':' :: c13 :: c14 :: zone =>
    match digit4 c1 c2 c3 c4, digit2 c5 c6, digit2 c7 c8,
          digit2 c9 c10, digit2 c11 c12, digit2 c13 c14 with
    | some y, some mo, some d, some h, some mi, some sec =>
      if fieldsOk y mo d h mi sec then
        match parseZone zone with
        | some off =>
          some { instant := daysFromCivil y mo d * 86400 + (h * 3600 + mi * 60 + sec : Nat) - off,
                 offset := off }
        | none => none
      else none
    | _, _, _, _, _, _ => none
  | _ => none

/-- Go's `time.Parse("2006-01-02", s)`: a bare calendar date, returned as
midnight UTC of that date (Go parses layouts without zone indicator in
UTC). -/
def timeParseDate (s : String) : Option GoTime :=
  match s.data with
  | [c1, c2, c3, c4, '-', c5, c6, '-', c7, c8] =>
    match digit4 c1 c2 c3 c4, digit2 c5 c6, digit2 c7 c8 with
    | some y, some mo, some d =>
      if 1 ≤ mo && mo ≤ 12 && 1 ≤ d && d ≤ daysInMonth y mo then
        some { instant := daysFromCivil y mo d * 86400, offset := 0 }
      else none
    | _, _, _ => none
  | _ => none

/-- The Google Calendar API `EventDateTime`: a `DateTime` string (RFC3339,
empty when absent) and a `Date` string (bare calendar date, empty when
absent). -/
structure EventDateTime where
  dateTime : String
  date : String
  deriving DecidableEq, Repr

/-- The raw Google Calendar API event (`calendar.Event`), restricted to the
fields the repository reads. -/
structure RawEvent where
  id : String
  summary : String
  location : String
  description : String
  start : EventDateTime
  «end» : EventDateTime
  deriving DecidableEq, Repr

/-- The normalized `domain.Event` entity. -/
structure Event where
  id : String
  title : String
  startTime : GoTime
  endTime : GoTime
  isAllDay : Bool
  location : String
  description : String
  deriving DecidableEq, Repr

/-- The distinct failure modes of `convertToEvent`, one constructor per
`fmt.Errorf` message in the source; parse-failure constructors carry the
offending raw string. -/
inductive ConvErr where
  | startParseFailed (raw : String)
  | startDateParseFailed (raw : String)
  | missingStart
  | endParseFailed (raw : String)
  | endDateParseFailed (raw : String)
  | missingEnd
  deriving DecidableEq, Repr

/-- Whether a `ConvErr` concerns the end field. -/
def ConvErr.isEndErr : ConvErr → Bool
  | .endParseFailed _ => true
  | .endDateParseFailed _ => true
  | .missingEnd => true
  | _ => false

/-- The start-field block of `convertToEvent` (gateway/google_calendar.go):
a full timestamp yields a timed start (`isAllDay = false`), else a bare
date yields an all-day start (`isAllDay = true`), else the missing-start
error; either parse failure aborts with the field-specific error. -/
def resolveStart (tz : Int) (f : EventDateTime) : Except ConvErr (GoTime × Bool) :=
  if f.dateTime ≠ "" then
    match timeParseRFC3339 f.dateTime with
    | some t => .ok (t.inLoc tz, false)
    | none => .error (.startParseFailed f.dateTime)
  else if f.date ≠ "" then
    match timeParseDate f.date with
    | some t => .ok (t.inLoc tz, true)
    | none => .error (.startDateParseFailed f.date)
  else .error .missingStart

/-- The end-field block of `convertToEvent`: same two-path resolution as
the start field, but without any effect on `isAllDay`. -/
def resolveEnd (tz : Int) (f : EventDateTime) : Except ConvErr GoTime :=
  if f.dateTime ≠ "" then
    match timeParseRFC3339 f.dateTime with
    | some t => .ok (t.inLoc tz)
    | none => .error (.endParseFailed f.dateTime)
  else if f.date ≠ "" then
    match timeParseDate f.date with
    | some t => .ok (t.inLoc tz)
    | none => .error (.endDateParseFailed f.date)
  else .error .missingEnd

/-- `convertToEvent` (gateway/google_calendar.go lines 101-155): copy the
identity fields, substitute the placeholder title for an empty summary,
then resolve the start field and then the end field. -/
def convertToEvent (tz : Int) (event : RawEvent) : Except ConvErr Event :=
  match resolveStart tz event.start with
  | .error e => .error e
  | .ok (startTime, isAllDay) =>
    match resolveEnd tz event.«end» with
    | .error e => .error e
    | .ok endTime =>
      .ok { id := event.id,
            title := if event.summary = "" then "（無題）" else event.summary,
            startTime := startTime,
            endTime := endTime,
            isAllDay := isAllDay,
            location := event.location,
            description := event.description }

/-- The success projection of a conversion result. -/
def convOk (r : Except ConvErr Event) : Option Event :=
  match r with
  | .ok ev => some ev
  | .error _ => none

/-- The warning projection of a conversion result (a skipped event's logged
warning). -/
def convWarn (r : Except ConvErr Event) : Option ConvErr :=
  match r with
  | .ok _ => none
  | .error w => some w

/-- The conversion loop of `GetEvents` (gateway/google_calendar.go lines
86-95): convert each raw item in order; a failed item contributes a logged
warning (second component, modelling the `fmt.Printf` line) and is skipped,
a converted item is appended to the result list. -/
def convertBatch (tz : Int) : List RawEvent → List Event × List ConvErr
  | [] => ([], [])
  | e :: rest =>
    match convertToEvent tz e with
    | .ok ev =>
      let r := convertBatch tz rest
      (ev :: r.1, r.2)
    | .error w =>
      let r := convertBatch tz rest
      (r.1, w :: r.2)

/-- `GetEvents` after the provider call (gateway/google_calendar.go lines
81-97): a provider failure is wrapped into the retrieval error, a provider
success runs the conversion loop and never fails. -/
def getEvents (tz : Int) (listRes : Except String (List RawEvent)) :
    Except String (List Event × List ConvErr) :=
  match listRes with
  | .error e => .error ("カレンダーイベントの取得に失敗しました: " ++ e)
  | .ok items => .ok (convertBatch tz items)

/-- The query-window computation of `GetEvents` (gateway/google_calendar.go
lines 56-67): `from` is `time.Date(y, m, d, 0, 0, 0, 0, jst)`, local
midnight of the target date in JST, and `to` is `from.Add(24 * time.Hour)`
(exclusive). -/
def getEventsWindow (y m d : Nat) : GoTime × GoTime :=
  let startTimeInJST := timeDate y m d 0 0 0 jst
  (startTimeInJST, { startTimeInJST with instant := startTimeInJST.instant + 86400 })

/-- One entry of the `details` array of a LINE API error response. -/
structure LineErrorDetail where
  message : String
  property : String
  deriving DecidableEq, Repr

/-- The parsed LINE API error response body (`lineErrorResponse`). -/
structure LineErrorResponse where
  message : String
  details : List LineErrorDetail
  deriving DecidableEq, Repr

/-- The response-checking tail of `sendPushMessage`
(gateway/google_calendar.go lines 316-332): a 200 status succeeds; any
other status decodes the body — an undecodable body reports the status and
the decode error, a decoded body reports the status, the message, and the
first detail's message when the `details` array is non-empty.  `decoded`
is the outcome of `json.NewDecoder(resp.Body).Decode`, `.error` carrying
the decoder's error text. -/
def sendPushMessageCheck (statusCode : Nat)
    (decoded : Except String LineErrorResponse) : Except String Unit :=
  if statusCode ≠ 200 then
    match decoded with
    | .error e =>
      .error ("LINE API呼び出しが失敗しました (Status: " ++ toString statusCode ++
              ", レスポンス解析不可: " ++ e ++ ")")
    | .ok errorResponse =>
      let errorDetails :=
        errorResponse.message ++
          (match errorResponse.details with
           | [] => ""
           | d :: _ => " (詳細: " ++ d.message ++ ")")
      .error ("LINE API呼び出しが失敗しました (Status: " ++ toString statusCode ++
              "): " ++ errorDetails)
  else .ok ()

/-- The observable outcome of one `Execute` run: the returned
`(skipped, err)` pair plus how often the notifier rendered a digest and how
often it attempted a push delivery. -/
structure ExecResult where
  skipped : Bool
  err : Option String
  renders : Nat
  deliveries : Nat
  deriving DecidableEq, Repr

/-- `Execute` (usecase/notify_schedule.go lines 36-63) with its three
collaborator calls exposed as inputs: the two `GetEvents` outcomes and the
`SendScheduleNotification` outcome.  A retrieval error returns immediately;
both lists empty skips; otherwise the notifier is invoked exactly once,
and one invocation of `SendScheduleNotification`
(gateway/google_calendar.go lines 214-220) builds the digest once and
calls `sendPushMessage` once, hence `renders = deliveries = 1` on that
path. -/
def execute (todayRes tomorrowRes : Except String (List Event))
    (notifyRes : Except String Unit) : ExecResult :=
  match todayRes with
  | .error e => { skipped := false, err := some e, renders := 0, deliveries := 0 }
  | .ok todayEvents =>
    match tomorrowRes with
    | .error e => { skipped := false, err := some e, renders := 0, deliveries := 0 }
    | .ok tomorrowEvents =>
      if todayEvents.length = 0 ∧ tomorrowEvents.length = 0 then
        { skipped := true, err := none, renders := 0, deliveries := 0 }
      else
        match notifyRes with
        | .error e => { skipped := false, err := some e, renders := 1, deliveries := 1 }
        | .ok _ => { skipped := false, err := none, renders := 1, deliveries := 1 }

/-- Substring containment, stated on the underlying character lists. -/
def strContainsSub (hay needle : String) : Prop :=
  ∃ a b, hay.data = a ++ needle.data ++ b

example : timeParseDate "2024-08-23" = some { instant := 1724371200, offset := 0 } := by decide

example : timeParseRFC3339 "2024-01-15T10:00:00+09:00" =
    some { instant := 1705280400, offset := 32400 } := by decide

example : timeParseRFC3339 "invalid-time" = none := by decide

theorem resolveStart_ok_cases (tz : Int) (f : EventDateTime) (t : GoTime) (b : Bool)
    (h : resolveStart tz f = .ok (t, b)) :
    (f.dateTime ≠ "" ∧ b = false) ∨ (f.dateTime = "" ∧ f.date ≠ "" ∧ b = true) := by
  unfold resolveStart at h
  split at h
  · split at h
    · left
      refine ⟨by assumption, ?_⟩
      simp only [Except.ok.injEq, Prod.mk.injEq] at h
      exact h.2.symm
    · simp at h
  · rename_i hdt
    simp only [ne_eq, not_not] at hdt
    split at h
    · split at h
      · right
        refine ⟨hdt, by assumption, ?_⟩
        simp only [Except.ok.injEq, Prod.mk.injEq] at h
        exact h.2.symm
      · simp at h
    · simp at h

theorem resolveStart_error_isEndErr (tz : Int) (f : EventDateTime) (w : ConvErr)
    (h : resolveStart tz f = .error w) : w.isEndErr = false := by
  unfold resolveStart at h
  split at h
  · split at h
    · simp at h
    · simp only [Except.error.injEq] at h
      subst h
      rfl
  · split at h
    · split at h
      · simp at h
      · simp only [Except.error.injEq] at h
        subst h
        rfl
    · simp only [Except.error.injEq] at h
      subst h
      rfl

theorem convertToEvent_ok_spec (tz : Int) (e : RawEvent) (ev : Event)
    (h : convertToEvent tz e = .ok ev) :
    ∃ st et, resolveStart tz e.start = .ok (st, ev.isAllDay) ∧
      resolveEnd tz e.«end» = .ok et ∧
      ev.startTime = st ∧ ev.endTime = et ∧ ev.id = e.id ∧
      ev.title = (if e.summary = "" then "（無題）" else e.summary) ∧
      ev.location = e.location ∧ ev.description = e.description := by
  unfold convertToEvent at h
  split at h
  · simp at h
  · rename_i st b hs
    split at h
    · simp at h
    · rename_i et he
      simp only [Except.ok.injEq] at h
      subst h
      exact ⟨st, et, hs, he, rfl, rfl, rfl, rfl, rfl, rfl⟩

/-- C7: the normalized event's `isAllDay` flag is determined solely by the
start field's encoding — false whenever the start field carries a full
timestamp, true whenever the start field is date-only — regardless of
which encoding the end field uses. -/
theorem convertToEvent_isAllDay_start_only (tz : Int) (e : RawEvent) (ev : Event)
    (h : convertToEvent tz e = .ok ev) :
    (e.start.dateTime ≠ "" → ev.isAllDay = false) ∧
    (e.start.dateTime = "" → ev.isAllDay = true) := by
  obtain ⟨st, et, hs, -, -⟩ := convertToEvent_ok_spec tz e ev h
  rcases resolveStart_ok_cases tz e.start st ev.isAllDay hs with ⟨hne, hb⟩ | ⟨heq, -, hb⟩
  · exact ⟨fun _ => hb, fun hc => absurd hc hne⟩
  · exact ⟨fun hc => absurd heq hc, fun _ => hb⟩

/-- C9: an empty provider summary is replaced by the fixed placeholder
「（無題）」 in the normalized title; a non-empty summary passes through
unchanged. -/
theorem convertToEvent_title_placeholder (tz : Int) (e : RawEvent) (ev : Event)
    (h : convertToEvent tz e = .ok ev) :
    (e.summary = "" → ev.title = "（無題）") ∧
    (e.summary ≠ "" → ev.title = e.summary) := by
  obtain ⟨st, et, -, -, -, -, -, ht, -⟩ := convertToEvent_ok_spec tz e ev h
  constructor
  · intro hempty
    rw [ht, if_pos hempty]
  · intro hne
    rw [ht, if_neg hne]

theorem convertToEvent_error_of_start (tz : Int) (e : RawEvent) (w : ConvErr)
    (h : resolveStart tz e.start = .error w) : convertToEvent tz e = .error w := by
  unfold convertToEvent
  rw [h]

theorem convertToEvent_error_of_end (tz : Int) (e : RawEvent) (p : GoTime × Bool) (w : ConvErr)
    (hs : resolveStart tz e.start = .ok p) (he : resolveEnd tz e.«end» = .error w) :
    convertToEvent tz e = .error w := by
  obtain ⟨t, b⟩ := p
  unfold convertToEvent
  rw [hs, he]

/-- C4: an event whose start field exposes neither encoding fails with the
missing-start error; when the start field resolves but the end field
exposes neither encoding, it fails with the missing-end error; and a
malformed timestamp or date string in either field fails with the error
identifying that field and carrying the offending raw value. -/
theorem convertToEvent_missing_and_malformed_fields (tz : Int) (e : RawEvent) :
    (e.start.dateTime = "" → e.start.date = "" →
        convertToEvent tz e = .error .missingStart) ∧
    (∀ p, resolveStart tz e.start = .ok p → e.«end».dateTime = "" → e.«end».date = "" →
        convertToEvent tz e = .error .missingEnd) ∧
    (e.start.dateTime ≠ "" → timeParseRFC3339 e.start.dateTime = none →
        convertToEvent tz e = .error (.startParseFailed e.start.dateTime)) ∧
    (e.start.dateTime = "" → e.start.date ≠ "" → timeParseDate e.start.date = none →
        convertToEvent tz e = .error (.startDateParseFailed e.start.date)) ∧
    (∀ p, resolveStart tz e.start = .ok p → e.«end».dateTime ≠ "" →
        timeParseRFC3339 e.«end».dateTime = none →
        convertToEvent tz e = .error (.endParseFailed e.«end».dateTime)) ∧
    (∀ p, resolveStart tz e.start = .ok p → e.«end».dateTime = "" → e.«end».date ≠ "" →
        timeParseDate e.«end».date = none →
        convertToEvent tz e = .error (.endDateParseFailed e.«end».date)) := by
  refine ⟨?_, ?_, ?_, ?_, ?_, ?_⟩
  · intro h1 h2
    apply convertToEvent_error_of_start
    simp [resolveStart, h1, h2]
  · intro p hp h1 h2
    apply convertToEvent_error_of_end tz e p _ hp
    simp [resolveEnd, h1, h2]
  · intro h1 h2
    apply convertToEvent_error_of_start
    simp [resolveStart, h1, h2]
  · intro h1 h2 h3
    apply convertToEvent_error_of_start
    simp [resolveStart, h1, h2, h3]
  · intro p hp h1 h2
    apply convertToEvent_error_of_end tz e p _ hp
    simp [resolveEnd, h1, h2]
  · intro p hp h1 h2 h3
    apply convertToEvent_error_of_end tz e p _ hp
    simp [resolveEnd, h1, h2, h3]

/-- C10: start-field resolution is checked before end-field resolution —
an event lacking every time encoding fails with the missing-start error,
and an end-field error is only ever reported when the start field resolved
successfully. -/
theorem convertToEvent_start_checked_before_end (tz : Int) (e : RawEvent) :
    (e.start.dateTime = "" → e.start.date = "" → e.«end».dateTime = "" → e.«end».date = "" →
        convertToEvent tz e = .error .missingStart) ∧
    (∀ w, convertToEvent tz e = .error w → w.isEndErr = true →
        ∃ p, resolveStart tz e.start = .ok p) := by
  constructor
  · intro h1 h2 _ _
    apply convertToEvent_error_of_start
    simp [resolveStart, h1, h2]
  · intro w hw hend
    rcases hr : resolveStart tz e.start with w' | p
    · rw [convertToEvent_error_of_start tz e w' hr] at hw
      simp only [Except.error.injEq] at hw
      subst hw
      rw [resolveStart_error_isEndErr tz e.start w' hr] at hend
      cases hend
    · exact ⟨p, rfl⟩

/-- C2: a successfully listed batch is converted without error into
exactly the successfully normalized events in order, with one logged
warning per failed event; an empty batch — and hence a batch in which
every event fails — yields an empty list and no error. -/
theorem getEvents_partial_failure_tolerance (tz : Int) (items : List RawEvent) :
    getEvents tz (.ok items) = .ok (convertBatch tz items) ∧
    (convertBatch tz items).1 = items.filterMap (fun e => convOk (convertToEvent tz e)) ∧
    (convertBatch tz items).2 = items.filterMap (fun e => convWarn (convertToEvent tz e)) ∧
    ((∀ e ∈ items, convOk (convertToEvent tz e) = none) →
        (convertBatch tz items).1 = []) ∧
    getEvents tz (.ok ([] : List RawEvent)) = .ok ([], []) := by
  have hkey : (convertBatch tz items).1 =
        items.filterMap (fun e => convOk (convertToEvent tz e)) ∧
      (convertBatch tz items).2 =
        items.filterMap (fun e => convWarn (convertToEvent tz e)) := by
    induction items with
    | nil => exact ⟨rfl, rfl⟩
    | cons e rest ih =>
      cases hc : convertToEvent tz e with
      | ok ev =>
        simp [convertBatch, hc, convOk, convWarn, List.filterMap_cons, ih.1, ih.2]
      | error w =>
        simp [convertBatch, hc, convOk, convWarn, List.filterMap_cons, ih.1, ih.2]
  refine ⟨rfl, hkey.1, hkey.2, ?_, rfl⟩
  intro hall
  rw [hkey.1, List.filterMap_eq_nil_iff]
  exact hall

/-- C5: when both days' normalized lists are empty, `Execute` returns
`skipped = true` with no error and neither renders nor delivers; when at
least one list is non-empty, the digest is rendered once and delivery is
attempted once. -/
theorem execute_skip_both_empty_notify_otherwise (l1 l2 : List Event)
    (n : Except String Unit) :
    execute (.ok []) (.ok []) n =
      { skipped := true, err := none, renders := 0, deliveries := 0 } ∧
    (l1 ≠ [] ∨ l2 ≠ [] →
      (execute (.ok l1) (.ok l2) n).renders = 1 ∧
      (execute (.ok l1) (.ok l2) n).deliveries = 1) := by
  constructor
  · rfl
  · intro h
    have hcond : ¬(l1 = [] ∧ l2 = []) := by
      rcases h with h | h
      · exact fun hc => h hc.1
      · exact fun hc => h hc.2
    cases n with
    | ok u => simp [execute, hcond]
    | error e => simp [execute, hcond]

/-- C6: a retrieval error for either day makes `Execute` return that very
error with `skipped = false`, without rendering or delivering anything —
no partial notification is ever sent. -/
theorem execute_retrieval_error_aborts (e : String) (r2 : Except String (List Event))
    (l1 : List Event) (n : Except String Unit) :
    execute (.error e) r2 n =
      { skipped := false, err := some e, renders := 0, deliveries := 0 } ∧
    execute (.ok l1) (.error e) n =
      { skipped := false, err := some e, renders := 0, deliveries := 0 } := ⟨rfl, rfl⟩

/-- C8: the exclusive-mode query window for a target date anchors `from`
at local midnight of the date in JST and `to` exactly 24 hours later; for
2024-08-23 in the fixed +09:00 zone the window is
[2024-08-23T00:00:00+09:00, 2024-08-24T00:00:00+09:00), i.e. epoch
instants 1724338800 and 1724425200. -/
theorem getEventsWindow_exclusive_mode :
    (∀ y m d, (getEventsWindow y m d).1 = timeDate y m d 0 0 0 jst ∧
      (getEventsWindow y m d).2.instant = (getEventsWindow y m d).1.instant + 86400 ∧
      (getEventsWindow y m d).2.offset = (getEventsWindow y m d).1.offset) ∧
    getEventsWindow 2024 8 23 =
      (timeDate 2024 8 23 0 0 0 jst, timeDate 2024 8 24 0 0 0 jst) ∧
    (timeDate 2024 8 23 0 0 0 jst).instant = 1724338800 ∧
    (timeDate 2024 8 24 0 0 0 jst).instant = 1724425200 ∧
    (timeDate 2024 8 23 0 0 0 jst).offset = 32400 :=
  ⟨fun _ _ _ => ⟨rfl, rfl, rfl⟩, by decide, by decide, by decide, by decide⟩

/-- The all-day raw event of the repository's own integration test
(`Start.Date = "2024-08-23"`, `End.Date = "2024-08-24"`). -/
def allDayRaw : RawEvent :=
  { id := "2", summary := "All Day Event", location := "", description := "",
    start := { dateTime := "", date := "2024-08-23" },
    «end» := { dateTime := "", date := "2024-08-24" } }

/-- C1 (divergence witness): converting a date-only start field succeeds
with `isAllDay = true`, but the produced start time is the instant of
**UTC** midnight of the date (epoch 1724371200, i.e. 09:00 JST wall
clock), not local JST midnight (epoch 1724338800) as the claim, the spec
and the repository's own test expect. -/
theorem convertToEvent_allDay_utc_midnight :
    convertToEvent jst allDayRaw =
      .ok { id := "2", title := "All Day Event",
            startTime := { instant := 1724371200, offset := jst },
            endTime := { instant := 1724457600, offset := jst },
            isAllDay := true, location := "", description := "" } ∧
    (timeDate 2024 8 23 0 0 0 jst).instant = 1724338800 ∧
    ((1724371200 : Int) = 1724338800 → False) := by
  refine ⟨rfl, by decide, by decide⟩

theorem strContainsSub_split (x y z : String) : strContainsSub (x ++ y ++ z) y :=
  ⟨x.data, z.data, by simp [String.data_append]⟩

/-- C3: every non-success push-delivery response with a decodable error
body yields a delivery error containing the numeric status code, the
parsed message, and — when the `details` array is non-empty — the first
detail's message; a non-success response with an undecodable body reports
the status code (with the decoder's error) alone. -/
theorem sendPushMessage_error_reporting (statusCode : Nat) (h : statusCode ≠ 200)
    (r : LineErrorResponse) (decodeErr : String) :
    (∃ msg, sendPushMessageCheck statusCode (.ok r) = .error msg ∧
      strContainsSub msg (toString statusCode) ∧
      strContainsSub msg r.message ∧
      (∀ d ds, r.details = d :: ds → strContainsSub msg d.message)) ∧
    (∃ msg, sendPushMessageCheck statusCode (.error decodeErr) = .error msg ∧
      strContainsSub msg (toString statusCode)) := by
  constructor
  · cases hd : r.details with
    | nil =>
      refine ⟨"LINE API呼び出しが失敗しました (Status: " ++ toString statusCode ++
        "): " ++ (r.message ++ ""), ?_, ?_, ?_, ?_⟩
      · simp [sendPushMessageCheck, h, hd]
      · exact ⟨"LINE API呼び出しが失敗しました (Status: ".data,
          ("): " ++ (r.message ++ "")).data, by simp [String.data_append]⟩
      · exact ⟨("LINE API呼び出しが失敗しました (Status: " ++ toString statusCode ++
          "): ").data, "".data, by simp [String.data_append]⟩
      · intro d ds hds
        cases hds
    | cons d ds =>
      refine ⟨"LINE API呼び出しが失敗しました (Status: " ++ toString statusCode ++
        "): " ++ (r.message ++ (" (詳細: " ++ d.message ++ ")")), ?_, ?_, ?_, ?_⟩
      · simp [sendPushMessageCheck, h, hd]
      · exact ⟨"LINE API呼び出しが失敗しました (Status: ".data,
          ("): " ++ (r.message ++ (" (詳細: " ++ d.message ++ ")"))).data,
          by simp [String.data_append]⟩
      · exact ⟨("LINE API呼び出しが失敗しました (Status: " ++ toString statusCode ++
          "): ").data, (" (詳細: " ++ d.message ++ ")").data,
          by simp [String.data_append]⟩
      · intro d' ds' hds
        injection hds with h1 h2
        subst h1
        exact ⟨("LINE API呼び出しが失敗しました (Status: " ++ toString statusCode ++
          "): " ++ r.message ++ " (詳細: ").data, ")".data,
          by simp [String.data_append]⟩
  · refine ⟨"LINE API呼び出しが失敗しました (Status: " ++ toString statusCode ++
      ", レスポンス解析不可: " ++ decodeErr ++ ")", ?_, ?_⟩
    · simp [sendPushMessageCheck, h]
    · exact ⟨"LINE API呼び出しが失敗しました (Status: ".data,
        (", レスポンス解析不可: " ++ decodeErr ++ ")").data, by simp [String.data_append]⟩

/-- A timed raw event as in the repository's unit tests. -/
def timedRaw : RawEvent :=
  { id := "1", summary := "テストイベント", location := "東京", description := "",
    start := { dateTime := "2024-01-15T10:00:00+09:00", date := "" },
    «end» := { dateTime := "2024-01-15T11:00:00+09:00", date := "" } }

/-- The normalized form of `timedRaw`. -/
def timedEv : Event :=
  { id := "1", title := "テストイベント",
    startTime := { instant := 1705280400, offset := jst },
    endTime := { instant := 1705284000, offset := jst },
    isAllDay := false, location := "東京", description := "" }

/-- A timed raw event with an empty summary, as in the repository's unit
tests. -/
def emptyTitleRaw : RawEvent :=
  { id := "3", summary := "", location := "", description := "",
    start := { dateTime := "2024-01-15T10:00:00+09:00", date := "" },
    «end» := { dateTime := "2024-01-15T11:00:00+09:00", date := "" } }

/-- The normalized form of `emptyTitleRaw`. -/
def emptyTitleEv : Event :=
  { id := "3", title := "（無題）",
    startTime := { instant := 1705280400, offset := jst },
    endTime := { instant := 1705284000, offset := jst },
    isAllDay := false, location := "", description := "" }

/-- A raw event whose start field exposes neither encoding, as in the
repository's unit tests. -/
def noStartRaw : RawEvent :=
  { id := "4", summary := "No Start Time", location := "", description := "",
    start := { dateTime := "", date := "" },
    «end» := { dateTime := "2024-01-15T11:00:00+09:00", date := "" } }

/-- A raw event in which both the start and the end field expose neither
encoding. -/
def noTimesRaw : RawEvent :=
  { id := "5", summary := "No Times", location := "", description := "",
    start := { dateTime := "", date := "" },
    «end» := { dateTime := "", date := "" } }

/-- Witness for C7 at a concrete timed event. -/
theorem convertToEvent_isAllDay_start_only_witness :
    convertToEvent jst timedRaw = .ok timedEv ∧ timedEv.isAllDay = false :=
  ⟨rfl, (convertToEvent_isAllDay_start_only jst timedRaw timedEv rfl).1 (by decide)⟩

/-- Witness for C9 at a concrete empty-summary event. -/
theorem convertToEvent_title_placeholder_witness :
    convertToEvent jst emptyTitleRaw = .ok emptyTitleEv ∧ emptyTitleEv.title = "（無題）" :=
  ⟨rfl, (convertToEvent_title_placeholder jst emptyTitleRaw emptyTitleEv rfl).1 rfl⟩

/-- Witness for C4 at a concrete event with no start encoding. -/
theorem convertToEvent_missing_and_malformed_fields_witness :
    convertToEvent jst noStartRaw = .error ConvErr.missingStart :=
  (convertToEvent_missing_and_malformed_fields jst noStartRaw).1 rfl rfl

/-- Witness for C10 at a concrete event with no time encodings at all. -/
theorem convertToEvent_start_checked_before_end_witness :
    convertToEvent jst noTimesRaw = .error ConvErr.missingStart :=
  (convertToEvent_start_checked_before_end jst noTimesRaw).1 rfl rfl rfl rfl

/-- Witness for C2 at a concrete all-failing batch. -/
theorem getEvents_partial_failure_tolerance_witness :
    (convertBatch jst [noStartRaw]).1 = [] :=
  (getEvents_partial_failure_tolerance jst [noStartRaw]).2.2.2.1 (by
    intro e he
    simp only [List.mem_singleton] at he
    subst he
    rfl)

/-- Witness for C3 at status 400 with body message "Invalid request". -/
theorem sendPushMessage_error_reporting_witness :
    (∃ msg, sendPushMessageCheck 400
        (.ok { message := "Invalid request", details := [] }) = .error msg ∧
      strContainsSub msg (toString 400) ∧
      strContainsSub msg "Invalid request" ∧
      (∀ d ds, ([] : List LineErrorDetail) = d :: ds → strContainsSub msg d.message)) ∧
    (∃ msg, sendPushMessageCheck 400 (.error "unexpected EOF") = .error msg ∧
      strContainsSub msg (toString 400)) :=
  sendPushMessage_error_reporting 400 (by decide)
    { message := "Invalid request", details := [] } "unexpected EOF"

/-- Witness for C5 at one non-empty day. -/
theorem execute_skip_both_empty_notify_otherwise_witness :
    (execute (.ok [timedEv]) (.ok []) (.ok ())).renders = 1 ∧
    (execute (.ok [timedEv]) (.ok []) (.ok ())).deliveries = 1 :=
  (execute_skip_both_empty_notify_otherwise [timedEv] [] (.ok ())).2 (Or.inl (by simp))
